import Mathlib

/-!
Verification of the fake-review credibility scorer
(`src/fake_review/app.py`) against its natural-language specification.

The Python source is shallowly embedded as follows:
* review text is a `String`, processed as its `List Char` of characters;
* the VADER sentiment compound score is an external capability; it is
  modelled as a `ℚ` parameter passed into `analyze_text` (the spec treats
  the exact value as implementation-specific, only its range matters);
* the SQLite review store is a `List Review`; timestamps are modelled as
  `Int` seconds (SQLite compares the `'%Y-%m-%d %H:%M:%S'` strings
  lexicographically, which is order-isomorphic to comparing the instants
  themselves, so an ordered integer timestamp is a faithful model);
* fallible store access (sqlite3 raising on connection/query failure,
  with no `try`/`except` anywhere in the source) is modelled with
  `Except String`: the pipeline threads errors and never catches them.
-/

/-- `s.lower()` on the character list: ASCII-style lowercasing. -/
def lowerChars (cs : List Char) : List Char := cs.map Char.toLower

/-- Does `needle` occur at the head of `hay`? -/
def listStartsWith : List Char → List Char → Bool
  | _, [] => true
  | [], _ :: _ => false
  | a :: restA, b :: restB => a == b && listStartsWith restA restB

/-- Scanner for non-overlapping substring counting: walk the text one
character at a time; `skip > 0` means we are still inside a previously
matched occurrence, so no new match may start here.  On a match at the
current position, the remaining `needle.length - 1` characters of the
occurrence are skipped before the next match may start — exactly
Python's left-to-right non-overlapping `str.count`. -/
def substrCountAux (needle : List Char) : List Char → Nat → Nat
  | [], _ => 0
  | c :: rest, skip =>
    if 0 < skip then substrCountAux needle rest (skip - 1)
    else if listStartsWith (c :: rest) needle then
      1 + substrCountAux needle rest (needle.length - 1)
    else
      substrCountAux needle rest 0

/-- Python `str.count(sub)`: number of non-overlapping occurrences of
`needle` in `hay`, scanning left to right (`len(hay)+1` for the empty
needle, matching Python). -/
def substrCount (hay needle : List Char) : Nat :=
  if needle.isEmpty then hay.length + 1
  else substrCountAux needle hay 0

/-- Python `len(s.split())`: number of maximal runs of non-whitespace
characters (leading/trailing/collapsed whitespace yields no tokens).
`inWord` records whether the previous character was part of a word. -/
def wordCountAux : List Char → Bool → Nat
  | [], _ => 0
  | c :: rest, inWord =>
    if c.isWhitespace then wordCountAux rest false
    else if inWord then wordCountAux rest true
    else 1 + wordCountAux rest true

/-- The fixed generic-phrase list from `analyze_text`
(`generic_keywords` in the source). -/
def generic_keywords : List (List Char) :=
  ["best product ever".data, "highly recommend".data, "excellent".data, "love it".data]

/-- `sum(review_text.lower().count(phrase) for phrase in generic_keywords)`. -/
def generic_count_of (review_text : String) : Nat :=
  (generic_keywords.map (fun phrase => substrCount (lowerChars review_text.data) phrase)).sum

/-- `review_text.count('!')`. -/
def exclam_count_of (review_text : String) : Nat :=
  review_text.data.count '!'

/-- `len(review_text.split())`. -/
def word_count_of (review_text : String) : Nat :=
  wordCountAux review_text.data false

/-- The scoring step of `analyze_text`: base 10, four conditional
subtractions, then `max(score, 1)`. Integer arithmetic throughout,
exactly as in the Python source. -/
def credibility_of (generic_count exclam_count word_count : Nat) (sentiment : ℚ) : Int :=
  let score0 : Int := 10
  let score1 := if generic_count > 0 then score0 - generic_count else score0
  let score2 := if exclam_count > 2 then score1 - ((exclam_count : Int) - 2) else score1
  let score3 := if word_count < 5 then score2 - 3 else score2
  let score4 := if |sentiment| > (0.8 : ℚ) then score3 - 2 else score3
  max score4 1

/-- The transient analysis record built by `analyze_text`. -/
structure TextAnalysis where
  generic_phrase_count : Nat
  exclamation_count : Nat
  word_count : Nat
  sentiment : ℚ
  credibility_score : Int
deriving Repr, DecidableEq

/-- `analyze_text(review_text)` from the source, with the VADER compound
score supplied as the `sentiment` parameter (external capability). -/
def analyze_text (review_text : String) (sentiment : ℚ) : TextAnalysis :=
  { generic_phrase_count := generic_count_of review_text
    exclamation_count := exclam_count_of review_text
    word_count := word_count_of review_text
    sentiment := sentiment
    credibility_score :=
      credibility_of (generic_count_of review_text) (exclam_count_of review_text)
        (word_count_of review_text) sentiment }

/-- A row of the `reviews` table. -/
structure Review where
  user_id : String
  review_text : String
  timestamp : Int
deriving Repr, DecidableEq

/-- `SELECT COUNT(*) FROM reviews WHERE user_id=? AND timestamp>=?`:
count of rows whose `user_id` equals `uid` exactly and whose timestamp
is at least `since` (inclusive lower bound). -/
def count_reviews (store : List Review) (uid : String) (since : Int) : Nat :=
  (store.filter (fun r => r.user_id == uid && decide (since ≤ r.timestamp))).length

/-- `analyze_user(user_id)`: count this user's reviews with timestamp
`≥ now − 1 hour` (3600 seconds), and return `count − 5` when
`count > 5`, else `0`. -/
def analyze_user (store : List Review) (user_id : String) (now : Int) : Nat :=
  let one_hour_ago := now - 3600
  let count := count_reviews store user_id one_hour_ago
  if count > 5 then count - 5 else 0

/-- The default `threshold=6` of `is_fake`. -/
def default_threshold : Int := 6

/-- `is_fake(credibility_score, threshold)`: a single strict
less-than comparison. -/
def is_fake (credibility_score threshold : Int) : Bool :=
  decide (credibility_score < threshold)

/-- The aggregation step of `submit_review`:
`overall_score = max(credibility_score - user_penalty, 1)`. -/
def overall_of (credibility_score : Int) (user_penalty : Nat) : Int :=
  max (credibility_score - user_penalty) 1

/-- What `submit_review` hands to the template for rendering. -/
structure SubmitResult where
  analysis : TextAnalysis
  user_penalty : Nat
  overall_score : Int
  verdict : Bool
deriving Repr, DecidableEq

/-- `submit_review`: store the review (timestamped `now`), run the text
analysis, read back the user's recent-review count (the read happens
after the write, against the updated store), aggregate, and decide the
verdict with the default threshold. Returns the updated store and the
rendered result. -/
def submit_review (store : List Review) (user_id review_text : String)
    (now : Int) (sentiment : ℚ) : List Review × SubmitResult :=
  let store2 := store ++ [⟨user_id, review_text, now⟩]
  let text_analysis := analyze_text review_text sentiment
  let user_penalty := analyze_user store2 user_id now
  let overall_score := overall_of text_analysis.credibility_score user_penalty
  (store2,
   { analysis := text_analysis
     user_penalty := user_penalty
     overall_score := overall_score
     verdict := is_fake overall_score default_threshold })

/-- Fallible read of the whole store (sqlite3 may fail to connect or
query; the Python source has no exception handler, so the error
propagates). -/
def analyze_userE (store : Except String (List Review)) (user_id : String)
    (now : Int) : Except String Nat :=
  match store with
  | .error e => .error e
  | .ok rows => .ok (analyze_user rows user_id now)

/-- Fallible insert into the store. -/
def insertE (store : Except String (List Review)) (r : Review) :
    Except String (List Review) :=
  match store with
  | .error e => .error e
  | .ok rows => .ok (rows ++ [r])

/-- `submit_review` against a fallible store: every store error is
threaded to the caller, never caught (the source has no `try`/`except`),
so no partial result is produced. -/
def submit_reviewE (store : Except String (List Review)) (user_id review_text : String)
    (now : Int) (sentiment : ℚ) : Except String (List Review × SubmitResult) :=
  match insertE store ⟨user_id, review_text, now⟩ with
  | .error e => .error e
  | .ok store2 =>
    let text_analysis := analyze_text review_text sentiment
    match analyze_userE (.ok store2) user_id now with
    | .error e => .error e
    | .ok user_penalty =>
      let overall_score := overall_of text_analysis.credibility_score user_penalty
      .ok (store2,
        { analysis := text_analysis
          user_penalty := user_penalty
          overall_score := overall_score
          verdict := is_fake overall_score default_threshold })

/-- The sequential conditional subtractions of the scoring step equal a
single closed-form expression: base 10 minus the four penalty terms,
lower-clamped at 1. Shared helper for the scorer theorems. -/
theorem credibility_of_eq (g e w : Nat) (s : ℚ) :
    credibility_of g e w s =
      max (10 - (if 0 < g then (g : Int) else 0) - (if 2 < e then (e : Int) - 2 else 0)
            - (if w < 5 then 3 else 0) - (if (0.8 : ℚ) < |s| then 2 else 0)) 1 := by
  simp only [credibility_of]
  split_ifs <;> congr 1 <;> omega

/-- C1: for every signal tuple with sentiment in `[-1, 1]`, the scoring
step of `analyze_text` returns an integer in `[1, 10]` equal to 10 minus
`generic_phrase_count` (when positive), minus `exclamation_count − 2`
when `exclamation_count > 2`, minus 3 when `word_count < 5`, minus 2
when `|sentiment| > 0.8`, with only a lower clamp of 1 applied. -/
theorem credibility_score_spec (g e w : Nat) (s : ℚ) (_hs : -1 ≤ s ∧ s ≤ 1) :
    credibility_of g e w s =
      max (10 - (if 0 < g then (g : Int) else 0) - (if 2 < e then (e : Int) - 2 else 0)
            - (if w < 5 then 3 else 0) - (if (0.8 : ℚ) < |s| then 2 else 0)) 1 ∧
    1 ≤ credibility_of g e w s ∧ credibility_of g e w s ≤ 10 := by
  refine ⟨credibility_of_eq g e w s, ?_, ?_⟩ <;> rw [credibility_of_eq] <;>
    split_ifs <;> omega

/-- C1 witness: the scorer at the concrete tuple (3, 5, 4, 0) is within
`[1, 10]`. -/
theorem credibility_score_spec_witness :
    1 ≤ credibility_of 3 5 4 0 ∧ credibility_of 3 5 4 0 ≤ 10 :=
  ⟨(credibility_score_spec 3 5 4 0 ⟨by norm_num, by norm_num⟩).2.1,
   (credibility_score_spec 3 5 4 0 ⟨by norm_num, by norm_num⟩).2.2⟩

/-- C2: `is_fake` at the default threshold is exactly the strict
comparison `overall_score < 6`; in particular 6 maps to `false` and 5
maps to `true`. -/
theorem is_fake_threshold_spec :
    (∀ overall_score : Int,
      is_fake overall_score default_threshold = decide (overall_score < 6)) ∧
    is_fake 6 default_threshold = false ∧ is_fake 5 default_threshold = true :=
  ⟨fun _ => rfl, by decide, by decide⟩

/-- C3: `analyze_user` counts reviews by the exact `user_id` with
timestamp `≥ now − 1 hour` (inclusive) and returns `count − 5` when
`count > 5`, else 0; counts 5 and 6 give penalties 0 and 1. -/
theorem analyze_user_penalty_spec (store : List Review) (user_id : String) (now : Int) :
    (count_reviews store user_id (now - 3600) ≤ 5 → analyze_user store user_id now = 0) ∧
    (5 < count_reviews store user_id (now - 3600) →
      analyze_user store user_id now = count_reviews store user_id (now - 3600) - 5) ∧
    (count_reviews store user_id (now - 3600) = 5 → analyze_user store user_id now = 0) ∧
    (count_reviews store user_id (now - 3600) = 6 → analyze_user store user_id now = 1) := by
  unfold analyze_user
  dsimp only
  refine ⟨fun h => ?_, fun h => ?_, fun h => ?_, fun h => ?_⟩ <;> split_ifs <;> omega

/-- C3 witness: six reviews by user `"u"` inside the window give
penalty 1. -/
theorem analyze_user_penalty_spec_witness :
    analyze_user (List.replicate 6 (⟨"u", "t", 100⟩ : Review)) "u" 100 = 1 :=
  (analyze_user_penalty_spec (List.replicate 6 (⟨"u", "t", 100⟩ : Review)) "u" 100).2.2.2
    (by decide)

/-- C4: the aggregation step of `submit_review` computes
`overall_score = max(credibility_score − user_penalty, 1)`. -/
theorem submit_overall_formula (store : List Review) (user_id review_text : String)
    (now : Int) (sentiment : ℚ) :
    (submit_review store user_id review_text now sentiment).2.overall_score =
      max ((analyze_text review_text sentiment).credibility_score
            - analyze_user (store ++ [⟨user_id, review_text, now⟩]) user_id now) 1 :=
  rfl

/-- C5: `credibility_score` and `overall_score` are always at least 1,
never zero or negative, whatever the input signals and store state. -/
theorem clamp_invariant (review_text : String) (sentiment : ℚ)
    (store : List Review) (user_id : String) (now : Int) :
    1 ≤ (analyze_text review_text sentiment).credibility_score ∧
    1 ≤ (submit_review store user_id review_text now sentiment).2.overall_score :=
  ⟨le_max_right _ _, le_max_right _ _⟩

/-- On `"Excellent! Excellent! Love it!!!"` the scorer returns 1
whatever the sentiment value: the pre-clamp score is
`10 − 3 − (5−2) − 3 = 1`, and an extreme sentiment only pushes it below
the clamp. Shared helper for the Scenario A theorems. -/
theorem scenarioA_credibility (sentiment : ℚ) :
    (analyze_text "Excellent! Excellent! Love it!!!" sentiment).credibility_score = 1 := by
  have hg : generic_count_of "Excellent! Excellent! Love it!!!" = 3 := by decide
  have he : exclam_count_of "Excellent! Excellent! Love it!!!" = 5 := by decide
  have hw : word_count_of "Excellent! Excellent! Love it!!!" = 4 := by decide
  show credibility_of (generic_count_of "Excellent! Excellent! Love it!!!")
      (exclam_count_of "Excellent! Excellent! Love it!!!")
      (word_count_of "Excellent! Excellent! Love it!!!") sentiment = 1
  rw [hg, he, hw, credibility_of_eq]
  split_ifs <;> omega

/-- C6 counterexample: on `"Excellent! Excellent! Love it!!!"` the
extractor yields `generic_phrase_count = 3` (two `"excellent"` matches
plus one `"love it"`), not 2, and `exclamation_count = 5`, not 4, and
the credibility score (here at neutral sentiment) is 1, not 3. -/
theorem scenarioA_counterexample :
    (analyze_text "Excellent! Excellent! Love it!!!" 0).generic_phrase_count ≠ 2 ∧
    (analyze_text "Excellent! Excellent! Love it!!!" 0).exclamation_count ≠ 4 ∧
    (analyze_text "Excellent! Excellent! Love it!!!" 0).credibility_score ≠ 3 := by
  refine ⟨by decide, by decide, ?_⟩
  rw [scenarioA_credibility]
  decide

/-- C6 amended: on `"Excellent! Excellent! Love it!!!"` the extractor
yields `generic_phrase_count = 3`, `exclamation_count = 5`,
`word_count = 4`, and the credibility score is
`max(10 − 3 − (5−2) − 3, 1) = 1` for every sentiment value (an extreme
sentiment only pushes the pre-clamp score lower). -/
theorem scenarioA_amended (sentiment : ℚ) :
    (analyze_text "Excellent! Excellent! Love it!!!" sentiment).generic_phrase_count = 3 ∧
    (analyze_text "Excellent! Excellent! Love it!!!" sentiment).exclamation_count = 5 ∧
    (analyze_text "Excellent! Excellent! Love it!!!" sentiment).word_count = 4 ∧
    (analyze_text "Excellent! Excellent! Love it!!!" sentiment).credibility_score = 1 :=
  ⟨(by decide : generic_count_of "Excellent! Excellent! Love it!!!" = 3),
   (by decide : exclam_count_of "Excellent! Excellent! Love it!!!" = 5),
   (by decide : word_count_of "Excellent! Excellent! Love it!!!" = 4),
   scenarioA_credibility sentiment⟩

/-- C7: `submit_review` writes the review before `analyze_user` reads,
so the penalty is computed on the updated store and the frequency count
seen by `analyze_user` includes the just-stored review (it is one more
than the same count on the pre-submission store). -/
theorem write_before_read (store : List Review) (user_id review_text : String)
    (now : Int) (sentiment : ℚ) :
    (submit_review store user_id review_text now sentiment).2.user_penalty =
      analyze_user (store ++ [⟨user_id, review_text, now⟩]) user_id now ∧
    count_reviews (store ++ [⟨user_id, review_text, now⟩]) user_id (now - 3600) =
      count_reviews store user_id (now - 3600) + 1 := by
  constructor
  · rfl
  · have ht : now - 3600 ≤ now := by omega
    simp [count_reviews, List.filter_append, List.filter, ht]

/-- C8: a store failure propagates out of `analyze_userE` and out of the
submission pipeline unchanged; neither produces a zero penalty or any
partial result in that case. -/
theorem store_error_propagates (e user_id review_text : String)
    (now : Int) (sentiment : ℚ) :
    analyze_userE (.error e) user_id now = .error e ∧
    submit_reviewE (.error e) user_id review_text now sentiment = .error e :=
  ⟨rfl, rfl⟩

/-- C9: on the empty review text, the extractor yields all-zero counts
and, for any near-neutral sentiment (magnitude at most 0.8), the
credibility score is `10 − 3 = 7`. -/
theorem empty_text_spec (sentiment : ℚ) (hs : |sentiment| ≤ 0.8) :
    (analyze_text "" sentiment).word_count = 0 ∧
    (analyze_text "" sentiment).exclamation_count = 0 ∧
    (analyze_text "" sentiment).generic_phrase_count = 0 ∧
    (analyze_text "" sentiment).credibility_score = 7 := by
  refine ⟨rfl, rfl, rfl, ?_⟩
  show credibility_of (generic_count_of "") (exclam_count_of "") (word_count_of "")
      sentiment = 7
  have hg : generic_count_of "" = 0 := rfl
  have he : exclam_count_of "" = 0 := rfl
  have hw : word_count_of "" = 0 := rfl
  rw [hg, he, hw, credibility_of_eq, if_neg (not_lt.mpr hs)]
  split_ifs <;> omega

/-- C9 witness: the empty text at sentiment 0 scores 7. -/
theorem empty_text_spec_witness :
    (analyze_text "" 0).credibility_score = 7 :=
  (empty_text_spec 0 (by norm_num)).2.2.2

/-- C10: for `credibility_score ≥ 1`, the aggregated
`overall_score = max(c − p, 1)` never exceeds `c` and is monotone
non-increasing in the penalty. -/
theorem overall_monotone (c : Int) (p q : Nat) (hc : 1 ≤ c) (hpq : p ≤ q) :
    overall_of c p ≤ c ∧ overall_of c q ≤ overall_of c p := by
  unfold overall_of
  exact ⟨max_le (by omega) hc, max_le_max (by omega) le_rfl⟩

/-- C10 witness: with credibility 10, penalty 7 yields no higher an
overall score than penalty 2, and both stay at most 10. -/
theorem overall_monotone_witness :
    overall_of 10 2 ≤ 10 ∧ overall_of 10 7 ≤ overall_of 10 2 :=
  overall_monotone 10 2 7 (by norm_num) (by norm_num)
